import Mathlib

/-!
Shallow embedding of the macroquad FBO benchmark (src/main.rs): workload
generation (procedural textures and sprite placement), render path selection,
the frame-timing harness and the statistics reporting. Machine floats are
modelled as exact rationals; the f32 sine and cosine used by the sprite
placement are kept abstract as function parameters.
-/

namespace FboTest

/-- CLI arguments (struct Args, main.rs 4-29). -/
structure Args where
  fbo : Bool
  composite : Bool
  duration : ℚ
  sprites : ℕ
  scale : ℚ
  textures : ℕ

/-- The clap default values from the arg attributes. -/
def defaultArgs : Args :=
  { fbo := false, composite := false, duration := 4, sprites := 500, scale := 3,
    textures := 16 }

/-- The RunConfig invariant as the spec words it (second definition for the
invariant claim, to compare with what the code admits): sprite count at least
zero, texture count at least one, scale positive. -/
def specRunConfigInvariant (a : Args) : Prop :=
  0 ≤ a.sprites ∧ 1 ≤ a.textures ∧ 0 < a.scale

/-- An RGBA color with rational channels (macroquad Color has f32 fields). -/
structure Color where
  r : ℚ
  g : ℚ
  b : ℚ
  a : ℚ
deriving DecidableEq, Repr

/-- The transparent black that gen_image_color fills the image with before the
per-pixel loop overwrites it (main.rs 108). -/
def clearColor : Color := { r := 0, g := 0, b := 0, a := 0 }

/-- Pixel (x, y) of procedural texture i out of texCount (main.rs 111-114). -/
def texPixelColor (texCount i x y : ℕ) : Color :=
  { r := (((x + i * 7) % 32 : ℕ) : ℚ) / 31
    g := (((y + i * 13) % 32 : ℕ) : ℚ) / 31
    b := (i : ℚ) / (texCount : ℚ)
    a := 0.9 }

/-- A generated image: dimensions plus pixel contents. -/
structure TexImage where
  width : ℕ
  height : ℕ
  pixel : ℕ → ℕ → Color

/-- One generated 32 x 32 texture: starts transparent, then every in-range
pixel is overwritten by the procedural formula (main.rs 108-116). -/
def genTexture (texCount i : ℕ) : TexImage :=
  { width := 32, height := 32
    pixel := fun x y =>
      if x < 32 ∧ y < 32 then texPixelColor texCount i x y else clearColor }

/-- The texture generation loop (main.rs 106-120). -/
def generateTextures (texCount : ℕ) : List TexImage :=
  (List.range texCount).map (genTexture texCount)

/-- Zoom of the world camera used for direct drawing (main.rs 186-193). -/
def game_camera_zoom (scale w h : ℚ) : ℚ × ℚ :=
  (1 / w * 2 * scale, 1 / h * 2 * scale)

/-- Zoom of the cameras of both offscreen passes: the world camera zoom with
the vertical component negated (main.rs 202-207 and 228-233). -/
def offscreen_camera_zoom (scale w h : ℚ) : ℚ × ℚ :=
  ((game_camera_zoom scale w h).1, -(game_camera_zoom scale w h).2)

/-- One draw_texture_ex call issued by draw_sprites: texture index, top-left
position, destination size and tint alpha. -/
structure DrawCall where
  texIdx : ℕ
  posX : ℚ
  posY : ℚ
  sizeX : ℚ
  sizeY : ℚ
  alpha : ℚ
deriving DecidableEq, Repr

/-- The f32 TAU constant as a rational stand-in. -/
def tauConst : ℚ := 6.283185307179586

/-- i % textures.len() in Rust: a modulo-by-zero panic when the texture list
is empty, the index otherwise (main.rs 379). -/
def spriteTexIndex (texCount i : ℕ) : Option ℕ :=
  if texCount = 0 then none else some (i % texCount)

/-- The draw call for sprite i (main.rs 373-391), with the f32 sine and cosine
abstract as parameters sinf and cosf. -/
def spriteCallAt (sinf cosf : ℚ → ℚ) (texIdx i : ℕ) (time wvx wvy : ℚ) :
    DrawCall :=
  let halfW := wvx / 2
  let halfH := wvy / 2
  let fi : ℚ := (i : ℚ)
  let angle := fi * 0.618033988 * tauConst + time * 0.5
  let radius := |sinf (fi * 0.01)| * min halfW halfH * 0.8
  let x := cosf angle * radius
  let y := sinf angle * radius
  let size := 8.0 + sinf (fi * 0.1) * 4.0
  { texIdx := texIdx
    posX := x - size / 2
    posY := y - size / 2
    sizeX := size
    sizeY := size
    alpha := 0.8 + sinf (fi * 0.3) * 0.2 }

/-- The sprite loop body iterated over a list of indices, propagating the
modulo-by-zero panic (main.rs 372-392). -/
def drawSpritesFrom (sinf cosf : ℚ → ℚ) (texCount : ℕ) (time wvx wvy : ℚ) :
    List ℕ → Option (List DrawCall)
  | [] => some []
  | i :: rest =>
    match spriteTexIndex texCount i with
    | none => none
    | some ti =>
      match drawSpritesFrom sinf cosf texCount time wvx wvy rest with
      | none => none
      | some calls => some (spriteCallAt sinf cosf ti i time wvx wvy :: calls)

/-- draw_sprites (main.rs 368-393): the draw calls for indices 0..count. -/
def draw_sprites (sinf cosf : ℚ → ℚ) (texCount count : ℕ) (time wvx wvy : ℚ) :
    Option (List DrawCall) :=
  drawSpritesFrom sinf cosf texCount time wvx wvy (List.range count)

/-- The geometric content of a draw call: everything but the texture index. -/
def callGeom (d : DrawCall) : ℚ × ℚ × ℚ × ℚ × ℚ :=
  (d.posX, d.posY, d.sizeX, d.sizeY, d.alpha)

/-- The drawing surfaces available to one frame. -/
inductive Surface where
  | defaultFB
  | backgroundRT
  | sceneRT
deriving DecidableEq, Repr

/-- What one frame of the main loop renders where (main.rs 195-299):
the offscreen targets rendered into (in order), where the background gradient
goes, where the sprites go, whether the compositing shader draws the final
quad, and which offscreen textures are blitted to the visible surface. -/
structure FramePlan where
  offscreenUsed : List Surface
  gradientTarget : Option Surface
  spriteTarget : Surface
  usesCompositeShader : Bool
  blitted : List Surface
deriving DecidableEq, Repr

/-- Per-frame render path selection from the fbo and composite flags
(main.rs 195-299). -/
def framePlan (fbo composite : Bool) : FramePlan :=
  if fbo then
    { offscreenUsed := [Surface.backgroundRT, Surface.sceneRT]
      gradientTarget := some Surface.backgroundRT
      spriteTarget := Surface.sceneRT
      usesCompositeShader := composite
      blitted := if composite then [] else [Surface.backgroundRT, Surface.sceneRT] }
  else
    { offscreenUsed := []
      gradientTarget := none
      spriteTarget := Surface.defaultFB
      usesCompositeShader := false
      blitted := [] }

/-- Whether the plain blit compositing branch runs in a frame
(main.rs 271-293). -/
def blitPathTaken (p : FramePlan) : Bool :=
  !p.blitted.isEmpty

/-- render_target(w, h) allocates a buffer of exactly the given screen
dimensions (main.rs 123-126). -/
def render_target_size (screenW screenH : ℕ) : ℕ × ℕ :=
  (screenW, screenH)

/-- Destination size of each full-screen blit: stretched to the whole screen
(main.rs 266, 279, 289). -/
def blit_dest_size (screenW screenH : ℚ) : ℚ × ℚ :=
  (screenW, screenH)

/-- Startup material creation (main.rs 129-154): with composite requested a
failed load_material is unwrapped, aborting the program before the loop
(outer none); otherwise the run proceeds with the optional material. -/
def composite_material (composite : Bool) (loadResult : Option Unit) :
    Option (Option Unit) :=
  if composite then
    match loadResult with
    | none => none
    | some m => some (some m)
  else some none

/-- Mutable state of the timing loop (main.rs 160-162). -/
structure HarnessState where
  frameCount : ℕ
  frameTimes : List ℚ
  lastLogTime : ℚ
deriving Repr

/-- The loop state before the first iteration (main.rs 159-162). -/
def initialState (startTime : ℚ) : HarnessState :=
  { frameCount := 0, frameTimes := [], lastLogTime := startTime }

/-- One iteration of the main loop given the clock reading now and the frame
delta dt (main.rs 164-182): none means the duration check broke the loop
without touching the state; otherwise the updated state plus the divisor of a
periodic rolling report when one fired (the length of the last-30 window). -/
def loopStep (duration startTime now dt : ℚ) (s : HarnessState) :
    Option (HarnessState × Option ℕ) :=
  if duration ≤ now - startTime then none
  else
    let times := s.frameTimes ++ [dt]
    if 0.5 ≤ now - s.lastLogTime then
      some ({ frameCount := s.frameCount + 1, frameTimes := times,
              lastLogTime := now },
        some (min 30 times.length))
    else
      some ({ frameCount := s.frameCount + 1, frameTimes := times,
              lastLogTime := s.lastLogTime }, none)

/-- The loop run over a finite trace of (now, dt) clock observations,
collecting the divisors of the periodic reports. -/
def runLoop (duration startTime : ℚ) :
    List (ℚ × ℚ) → HarnessState → HarnessState × List ℕ
  | [], s => (s, [])
  | (now, dt) :: rest, s =>
    match loopStep duration startTime now dt s with
    | none => (s, [])
    | some (s2, rep) =>
      let r := runLoop duration startTime rest s2
      (r.1, match rep with | none => r.2 | some d => d :: r.2)

/-- The ascending sort of the frame-time samples (main.rs 350-351). -/
def sortAsc (l : List ℚ) : List ℚ :=
  List.insertionSort (fun a b => a ≤ b) l

/-- Average frames per second (main.rs 348). -/
def avg_fps (frameCount : ℕ) (totalTime : ℚ) : ℚ :=
  (frameCount : ℚ) / totalTime

/-- The results block (main.rs 347-365): average fps and the P50, P95 and P99
frame times; none models the index-out-of-bounds panic on an empty sample
vector. -/
def reportStats (frameCount : ℕ) (totalTime : ℚ) (frameTimes : List ℚ) :
    Option (ℚ × ℚ × ℚ × ℚ) :=
  let sorted := sortAsc frameTimes
  match sorted.get? (sorted.length / 2),
      sorted.get? (sorted.length * 95 / 100),
      sorted.get? (sorted.length * 99 / 100) with
  | some p50, some p95, some p99 =>
    some (avg_fps frameCount totalTime, p50, p95, p99)
  | _, _, _ => none

/-- Claim C6: for every scale and screen resolution the world camera zoom is
(2*scale/w, 2*scale/h), and the cameras of the offscreen passes use the same
zoom with the vertical component negated. -/
theorem camera_zoom_factors (s w h : ℚ) :
    game_camera_zoom s w h = (2 * s / w, 2 * s / h) ∧
    offscreen_camera_zoom s w h = (2 * s / w, -(2 * s / h)) := by
  constructor
  · simp only [game_camera_zoom, Prod.mk.injEq]
    constructor <;> · rw [one_div, div_eq_mul_inv]; ring
  · simp only [offscreen_camera_zoom, game_camera_zoom, Prod.mk.injEq]
    constructor <;> · rw [one_div, div_eq_mul_inv]; ring

/-- Claim C9: the reported average FPS is the frame count divided by the total
elapsed time, and 120 frames over 4 seconds give 30 FPS. -/
theorem avg_fps_spec (frameCount : ℕ) (totalTime : ℚ) :
    avg_fps frameCount totalTime = (frameCount : ℚ) / totalTime ∧
    avg_fps 120 4 = 30 := by
  refine ⟨rfl, ?_⟩
  norm_num [avg_fps]

/-- Claim C3 counterexample: with the fbo flag set and composite off, the
frame renders into two offscreen buffers, not exactly one. -/
theorem fbo_blit_single_target_counterexample :
    ¬ (framePlan true false).offscreenUsed.length = 1 := by decide

/-- Claim C3 amended: with the fbo flag set and composite off, each frame
renders into two screen-sized offscreen buffers — the background gradient into
one and the sprites into the other — and both buffers are then blitted
stretched to the full screen onto the visible surface, background first. -/
theorem fbo_blit_dual_target :
    (framePlan true false).offscreenUsed = [Surface.backgroundRT, Surface.sceneRT] ∧
    (framePlan true false).gradientTarget = some Surface.backgroundRT ∧
    (framePlan true false).spriteTarget = Surface.sceneRT ∧
    (framePlan true false).usesCompositeShader = false ∧
    (framePlan true false).blitted = [Surface.backgroundRT, Surface.sceneRT] ∧
    (∀ w h : ℕ, render_target_size w h = (w, h)) ∧
    (∀ w h : ℚ, blit_dest_size w h = (w, h)) :=
  ⟨rfl, rfl, rfl, rfl, rfl, fun _ _ => rfl, fun _ _ => rfl⟩

/-- Claim C7 counterexample: with neither flag set the composite shader is not
requested, yet the blit branch does not run either (the direct path draws
straight to the screen), refuting the unconditional biconditional between the
blit path and the absence of the composite flag. -/
theorem blit_iff_composite_counterexample :
    (framePlan false false).usesCompositeShader = false ∧
    blitPathTaken (framePlan false false) = false := by decide

/-- Claim C7 amended: a requested compositing shader that fails to load aborts
the program before any frame runs, the shader path never falls back to the
blit branch, and the blit branch runs on a frame exactly when the fbo flag is
set and the composite flag is not. -/
theorem composite_shader_fatal_blit_condition :
    composite_material true none = none ∧
    (∀ loaded : Option Unit, composite_material false loaded = some none) ∧
    (∀ fbo : Bool, blitPathTaken (framePlan fbo true) = false) ∧
    (∀ fbo composite : Bool,
      blitPathTaken (framePlan fbo composite) = (fbo && !composite)) := by
  refine ⟨rfl, fun loaded => ?_, fun fbo => ?_, fun fbo composite => ?_⟩
  · cases loaded <;> rfl
  · cases fbo <;> rfl
  · cases fbo <;> cases composite <;> rfl

/-- Claim C5 (code bug): the CLI performs no validation, so a texture count of
zero is representable; with the default 500 sprites the first sprite then hits
the modulo-by-zero panic in draw_sprites, and the configuration violates the
invariant stated by the spec. -/
theorem texture_count_zero_draw_fails :
    draw_sprites (fun q => q) (fun q => q) 0 defaultArgs.sprites 0 0 0 = none ∧
    ¬ specRunConfigInvariant { defaultArgs with textures := 0 } := by
  constructor
  · show drawSpritesFrom (fun q => q) (fun q => q) 0 0 0 0
      (List.range defaultArgs.sprites) = none
    rw [show defaultArgs.sprites = 499 + 1 from rfl, List.range_succ_eq_map]
    rfl
  · intro hinv
    exact absurd hinv.2.1 (by norm_num [defaultArgs])

/-- With a nonzero texture count the sprite loop succeeds and yields exactly
the mapped calls, each with texture index i mod texCount. -/
theorem drawSpritesFrom_pos (sinf cosf : ℚ → ℚ) (texCount : ℕ)
    (time wvx wvy : ℚ) (h : 1 ≤ texCount) (l : List ℕ) :
    drawSpritesFrom sinf cosf texCount time wvx wvy l
      = some (l.map fun i => spriteCallAt sinf cosf (i % texCount) i time wvx wvy) := by
  induction l with
  | nil => rfl
  | cons i rest ih =>
    have hz : ¬ texCount = 0 := by omega
    simp [drawSpritesFrom, spriteTexIndex, hz, ih]

/-- Claim C4: for any two positive texture counts, draw_sprites succeeds on
both, the geometric content (position, size, alpha) of every draw call is
identical, and only the texture index differs, equal to i mod the count. -/
theorem sprite_geometry_texture_count_independent (sinf cosf : ℚ → ℚ)
    (time wvx wvy : ℚ) (count M N : ℕ) (hM : 1 ≤ M) (hN : 1 ≤ N) :
    ∃ lM lN : List DrawCall,
      draw_sprites sinf cosf M count time wvx wvy = some lM ∧
      draw_sprites sinf cosf N count time wvx wvy = some lN ∧
      lM.map callGeom = lN.map callGeom ∧
      lM.map DrawCall.texIdx = (List.range count).map (fun i => i % M) ∧
      lN.map DrawCall.texIdx = (List.range count).map (fun i => i % N) := by
  refine ⟨_, _,
    drawSpritesFrom_pos sinf cosf M time wvx wvy hM (List.range count),
    drawSpritesFrom_pos sinf cosf N time wvx wvy hN (List.range count),
    ?_, ?_, ?_⟩
  · rw [List.map_map, List.map_map]
    exact List.map_congr_left (fun i _ => rfl)
  · rw [List.map_map]
    exact List.map_congr_left (fun i _ => rfl)
  · rw [List.map_map]
    exact List.map_congr_left (fun i _ => rfl)

/-- Witness for claim C4 at texture counts 1 and 3 with 2 sprites. -/
theorem sprite_geometry_texture_count_independent_witness :
    ∃ lM lN : List DrawCall,
      draw_sprites (fun q => q) (fun q => q) 1 2 0 0 0 = some lM ∧
      draw_sprites (fun q => q) (fun q => q) 3 2 0 0 0 = some lN ∧
      lM.map callGeom = lN.map callGeom ∧
      lM.map DrawCall.texIdx = (List.range 2).map (fun i => i % 1) ∧
      lN.map DrawCall.texIdx = (List.range 2).map (fun i => i % 3) :=
  sprite_geometry_texture_count_independent (fun q => q) (fun q => q) 0 0 0 2 1 3
    (by norm_num) (by norm_num)

/-- Claim C8: texture generation is a pure function of the count, producing
exactly count 32 x 32 images whose pixel (x, y) of texture i has red
((x + 7i) mod 32)/31, green ((y + 13i) mod 32)/31, blue i/count and alpha
0.9, all channels lying in [0, 1]. -/
theorem generate_textures_spec (texCount i x y : ℕ)
    (hi : i < texCount) (hx : x < 32) (hy : y < 32) :
    (generateTextures texCount).length = texCount ∧
    generateTextures texCount = generateTextures texCount ∧
    (generateTextures texCount).get? i = some (genTexture texCount i) ∧
    (genTexture texCount i).width = 32 ∧
    (genTexture texCount i).height = 32 ∧
    (genTexture texCount i).pixel x y =
      { r := (((x + i * 7) % 32 : ℕ) : ℚ) / 31
        g := (((y + i * 13) % 32 : ℕ) : ℚ) / 31
        b := (i : ℚ) / (texCount : ℚ)
        a := 0.9 } ∧
    0 ≤ ((genTexture texCount i).pixel x y).r ∧
    ((genTexture texCount i).pixel x y).r ≤ 1 ∧
    0 ≤ ((genTexture texCount i).pixel x y).g ∧
    ((genTexture texCount i).pixel x y).g ≤ 1 ∧
    0 ≤ ((genTexture texCount i).pixel x y).b ∧
    ((genTexture texCount i).pixel x y).b ≤ 1 ∧
    ((genTexture texCount i).pixel x y).a = 0.9 ∧
    0 ≤ ((genTexture texCount i).pixel x y).a ∧
    ((genTexture texCount i).pixel x y).a ≤ 1 := by
  have hpix : (genTexture texCount i).pixel x y = texPixelColor texCount i x y := by
    simp [genTexture, hx, hy]
  have hcount : (0 : ℚ) < (texCount : ℚ) := by
    have hpos : 0 < texCount := by omega
    exact_mod_cast hpos
  have hr1 : (((x + i * 7) % 32 : ℕ) : ℚ) ≤ 31 := by
    have hm : (x + i * 7) % 32 ≤ 31 := by omega
    exact_mod_cast hm
  have hg1 : (((y + i * 13) % 32 : ℕ) : ℚ) ≤ 31 := by
    have hm : (y + i * 13) % 32 ≤ 31 := by omega
    exact_mod_cast hm
  have hb1 : (i : ℚ) ≤ (texCount : ℚ) := by exact_mod_cast hi.le
  refine ⟨?_, rfl, ?_, rfl, rfl, ?_, ?_, ?_, ?_, ?_, ?_, ?_, ?_, ?_, ?_⟩
  · simp [generateTextures]
  · show ((List.range texCount).map (genTexture texCount)).get? i
      = some (genTexture texCount i)
    rw [List.get?_map, List.get?_range hi]
    rfl
  · rw [hpix]
    rfl
  · rw [hpix]
    exact div_nonneg (Nat.cast_nonneg _) (by norm_num)
  · rw [hpix]
    exact (div_le_one (by norm_num)).mpr hr1
  · rw [hpix]
    exact div_nonneg (Nat.cast_nonneg _) (by norm_num)
  · rw [hpix]
    exact (div_le_one (by norm_num)).mpr hg1
  · rw [hpix]
    exact div_nonneg (Nat.cast_nonneg _) hcount.le
  · rw [hpix]
    exact (div_le_one hcount).mpr hb1
  · rw [hpix]
    rfl
  · rw [hpix]
    norm_num [texPixelColor]
  · rw [hpix]
    norm_num [texPixelColor]

/-- Witness for claim C8 at count 2, texture 1, pixel (3, 5). -/
theorem generate_textures_spec_witness :
    (1 : ℕ) < 2 ∧ (3 : ℕ) < 32 ∧ (5 : ℕ) < 32 ∧
    ((generateTextures 2).length = 2 ∧
     generateTextures 2 = generateTextures 2 ∧
     (generateTextures 2).get? 1 = some (genTexture 2 1) ∧
     (genTexture 2 1).width = 32 ∧
     (genTexture 2 1).height = 32 ∧
     (genTexture 2 1).pixel 3 5 =
       { r := (((3 + 1 * 7) % 32 : ℕ) : ℚ) / 31
         g := (((5 + 1 * 13) % 32 : ℕ) : ℚ) / 31
         b := ((1 : ℕ) : ℚ) / ((2 : ℕ) : ℚ)
         a := 0.9 } ∧
     0 ≤ ((genTexture 2 1).pixel 3 5).r ∧
     ((genTexture 2 1).pixel 3 5).r ≤ 1 ∧
     0 ≤ ((genTexture 2 1).pixel 3 5).g ∧
     ((genTexture 2 1).pixel 3 5).g ≤ 1 ∧
     0 ≤ ((genTexture 2 1).pixel 3 5).b ∧
     ((genTexture 2 1).pixel 3 5).b ≤ 1 ∧
     ((genTexture 2 1).pixel 3 5).a = 0.9 ∧
     0 ≤ ((genTexture 2 1).pixel 3 5).a ∧
     ((genTexture 2 1).pixel 3 5).a ≤ 1) :=
  ⟨by norm_num, by norm_num, by norm_num,
    generate_textures_spec 2 1 3 5 (by norm_num) (by norm_num) (by norm_num)⟩

/-- Claim C1: the final report sorts a copy of the samples ascending and reads
P50 at index n / 2, P95 at index floor(n * 0.95) and P99 at index
floor(n * 0.99); on the sample sequence [0.010, 0.020, 0.015, 0.012, 0.030]
this gives P50 = 0.015, P95 = 0.030 and P99 = 0.030. -/
theorem percentile_report_spec (fc : ℕ) (tt : ℚ) (l : List ℚ) (h : l ≠ []) :
    List.Sorted (fun a b => a ≤ b) (sortAsc l) ∧
    (sortAsc l).Perm l ∧
    (∃ p50 p95 p99 : ℚ,
      (sortAsc l).get? (l.length / 2) = some p50 ∧
      (sortAsc l).get? (l.length * 95 / 100) = some p95 ∧
      (sortAsc l).get? (l.length * 99 / 100) = some p99 ∧
      reportStats fc tt l = some (avg_fps fc tt, p50, p95, p99)) ∧
    reportStats fc tt [0.010, 0.020, 0.015, 0.012, 0.030]
      = some (avg_fps fc tt, 0.015, 0.030, 0.030) := by
  have hlen : (sortAsc l).length = l.length :=
    (List.perm_insertionSort (fun a b => a ≤ b) l).length_eq
  have hn : 0 < l.length := List.length_pos.mpr h
  have h1 : l.length / 2 < (sortAsc l).length := by
    rw [hlen]
    exact Nat.div_lt_self hn (by norm_num)
  have h2 : l.length * 95 / 100 < (sortAsc l).length := by
    rw [hlen, Nat.div_lt_iff_lt_mul (by norm_num)]
    omega
  have h3 : l.length * 99 / 100 < (sortAsc l).length := by
    rw [hlen, Nat.div_lt_iff_lt_mul (by norm_num)]
    omega
  refine ⟨List.sorted_insertionSort (fun a b => a ≤ b) l,
    List.perm_insertionSort (fun a b => a ≤ b) l, ?_, ?_⟩
  · obtain ⟨p50, hp50⟩ : ∃ a, (sortAsc l).get? (l.length / 2) = some a :=
      ⟨_, List.get?_eq_get h1⟩
    obtain ⟨p95, hp95⟩ : ∃ a, (sortAsc l).get? (l.length * 95 / 100) = some a :=
      ⟨_, List.get?_eq_get h2⟩
    obtain ⟨p99, hp99⟩ : ∃ a, (sortAsc l).get? (l.length * 99 / 100) = some a :=
      ⟨_, List.get?_eq_get h3⟩
    have e1 : (sortAsc l).get? ((sortAsc l).length / 2) = some p50 := by
      rw [hlen]
      exact hp50
    have e2 : (sortAsc l).get? ((sortAsc l).length * 95 / 100) = some p95 := by
      rw [hlen]
      exact hp95
    have e3 : (sortAsc l).get? ((sortAsc l).length * 99 / 100) = some p99 := by
      rw [hlen]
      exact hp99
    refine ⟨p50, p95, p99, hp50, hp95, hp99, ?_⟩
    simp only [reportStats]
    rw [e1, e2, e3]
  · have hsort : sortAsc [(0.010 : ℚ), 0.020, 0.015, 0.012, 0.030]
        = [0.010, 0.012, 0.015, 0.020, 0.030] := by
      norm_num [sortAsc, List.insertionSort, List.orderedInsert]
    simp only [reportStats, hsort]
    norm_num [List.get?]

/-- Witness for claim C1 at the concrete five-sample sequence. -/
theorem percentile_report_spec_witness :
    ([(0.010 : ℚ), 0.020, 0.015, 0.012, 0.030] ≠ []) ∧
    (List.Sorted (fun a b => a ≤ b)
        (sortAsc [(0.010 : ℚ), 0.020, 0.015, 0.012, 0.030]) ∧
     (sortAsc [(0.010 : ℚ), 0.020, 0.015, 0.012, 0.030]).Perm
        [(0.010 : ℚ), 0.020, 0.015, 0.012, 0.030] ∧
     (∃ p50 p95 p99 : ℚ,
       (sortAsc [(0.010 : ℚ), 0.020, 0.015, 0.012, 0.030]).get?
           ([(0.010 : ℚ), 0.020, 0.015, 0.012, 0.030].length / 2) = some p50 ∧
       (sortAsc [(0.010 : ℚ), 0.020, 0.015, 0.012, 0.030]).get?
           ([(0.010 : ℚ), 0.020, 0.015, 0.012, 0.030].length * 95 / 100) = some p95 ∧
       (sortAsc [(0.010 : ℚ), 0.020, 0.015, 0.012, 0.030]).get?
           ([(0.010 : ℚ), 0.020, 0.015, 0.012, 0.030].length * 99 / 100) = some p99 ∧
       reportStats 7 2 [(0.010 : ℚ), 0.020, 0.015, 0.012, 0.030]
         = some (avg_fps 7 2, p50, p95, p99)) ∧
     reportStats 7 2 [0.010, 0.020, 0.015, 0.012, 0.030]
       = some (avg_fps 7 2, 0.015, 0.030, 0.030)) :=
  ⟨by simp, percentile_report_spec 7 2 [0.010, 0.020, 0.015, 0.012, 0.030] (by simp)⟩

/-- Claim C2 (code bug): with duration 0 and a clock that never runs
backwards, the loop breaks at its first duration check, recording no frame
sample and firing no periodic report; the results block then indexes the empty
sorted sample vector out of bounds (modelled as none), so the reporting does
not complete. -/
theorem duration_zero_report_out_of_bounds (startTime : ℚ) (obs : List (ℚ × ℚ))
    (hmono : ∀ p ∈ obs, startTime ≤ p.1) (fc : ℕ) (tt : ℚ) :
    (runLoop 0 startTime obs (initialState startTime)).1.frameCount = 0 ∧
    (runLoop 0 startTime obs (initialState startTime)).1.frameTimes = [] ∧
    (runLoop 0 startTime obs (initialState startTime)).2 = [] ∧
    reportStats fc tt [] = none := by
  have hrun : runLoop 0 startTime obs (initialState startTime)
      = (initialState startTime, []) := by
    cases obs with
    | nil => rfl
    | cons p rest =>
      obtain ⟨now, dt⟩ := p
      have h0 : (0 : ℚ) ≤ now - startTime := by
        have h1 := hmono (now, dt) (List.mem_cons_self _ _)
        simpa using h1
      simp [runLoop, loopStep, h0]
  rw [hrun]
  exact ⟨rfl, rfl, rfl, by simp [reportStats, sortAsc]⟩

/-- Witness for claim C2 with a one-observation clock trace. -/
theorem duration_zero_report_out_of_bounds_witness :
    (∀ p ∈ [((0 : ℚ), (1 / 60 : ℚ))], (0 : ℚ) ≤ p.1) ∧
    ((runLoop 0 0 [((0 : ℚ), (1 / 60 : ℚ))] (initialState 0)).1.frameCount = 0 ∧
     (runLoop 0 0 [((0 : ℚ), (1 / 60 : ℚ))] (initialState 0)).1.frameTimes = [] ∧
     (runLoop 0 0 [((0 : ℚ), (1 / 60 : ℚ))] (initialState 0)).2 = [] ∧
     reportStats 0 0 [] = none) :=
  ⟨by simp, duration_zero_report_out_of_bounds 0 [((0 : ℚ), (1 / 60 : ℚ))]
    (by simp) 0 0⟩

/-- One loop iteration preserves the count-equals-samples invariant, and any
report it fires uses the min(30, samples) divisor, which is at least one. -/
theorem loopStep_inv (duration startTime now dt : ℚ) (s s2 : HarnessState)
    (rep : Option ℕ)
    (hstep : loopStep duration startTime now dt s = some (s2, rep))
    (hinv : s.frameCount = s.frameTimes.length) :
    s2.frameCount = s2.frameTimes.length ∧
    ∀ d, rep = some d → d = min 30 s2.frameTimes.length ∧ 1 ≤ d := by
  unfold loopStep at hstep
  split at hstep
  · exact absurd hstep (by simp)
  · split at hstep
    · simp only [Option.some.injEq, Prod.mk.injEq] at hstep
      obtain ⟨hs2, hrep⟩ := hstep
      subst hs2
      subst hrep
      constructor
      · simp [hinv]
      · intro d hd
        simp only [Option.some.injEq] at hd
        subst hd
        refine ⟨rfl, ?_⟩
        rw [Nat.le_min]
        refine ⟨by norm_num, ?_⟩
        simp only [List.length_append, List.length_cons, List.length_nil]
        omega
    · simp only [Option.some.injEq, Prod.mk.injEq] at hstep
      obtain ⟨hs2, hrep⟩ := hstep
      subst hs2
      subst hrep
      constructor
      · simp [hinv]
      · intro d hd
        exact absurd hd (by simp)

/-- Running the loop over any clock trace preserves the count-equals-samples
invariant, and every periodic report divisor collected is at least one. -/
theorem runLoop_inv (duration startTime : ℚ) (obs : List (ℚ × ℚ))
    (s : HarnessState) (hinv : s.frameCount = s.frameTimes.length) :
    (runLoop duration startTime obs s).1.frameCount
      = (runLoop duration startTime obs s).1.frameTimes.length ∧
    ∀ d ∈ (runLoop duration startTime obs s).2, 1 ≤ d := by
  induction obs generalizing s with
  | nil => exact ⟨hinv, by simp [runLoop]⟩
  | cons p rest ih =>
    obtain ⟨now, dt⟩ := p
    cases hstep : loopStep duration startTime now dt s with
    | none =>
      constructor
      · simpa [runLoop, hstep] using hinv
      · simp [runLoop, hstep]
    | some sr =>
      obtain ⟨s2, rep⟩ := sr
      have hs2 := loopStep_inv duration startTime now dt s s2 rep hstep hinv
      have hrest := ih s2 hs2.1
      constructor
      · simpa [runLoop, hstep] using hrest.1
      · intro d hd
        simp only [runLoop, hstep] at hd
        cases rep with
        | none => exact hrest.2 d (by simpa using hd)
        | some d0 =>
          simp only [List.mem_cons] at hd
          cases hd with
          | inl hdd =>
            subst hdd
            exact (hs2.2 _ rfl).2
          | inr hdd => exact hrest.2 d hdd

/-- Claim C10: after every loop iteration and at loop exit the frame counter
equals the number of recorded frame-time samples, and every periodic rolling
report fires only after a sample was appended, with divisor
min(30, samples recorded) at least one. -/
theorem frame_count_matches_samples (duration startTime : ℚ) :
    (∀ now dt : ℚ, ∀ s s2 : HarnessState, ∀ rep : Option ℕ,
      loopStep duration startTime now dt s = some (s2, rep) →
      s.frameCount = s.frameTimes.length →
      s2.frameCount = s2.frameTimes.length ∧
      ∀ d, rep = some d → d = min 30 s2.frameTimes.length ∧ 1 ≤ d) ∧
    (∀ obs : List (ℚ × ℚ), ∀ s : HarnessState,
      s.frameCount = s.frameTimes.length →
      (runLoop duration startTime obs s).1.frameCount
        = (runLoop duration startTime obs s).1.frameTimes.length ∧
      ∀ d ∈ (runLoop duration startTime obs s).2, 1 ≤ d) :=
  ⟨fun now dt s s2 rep hstep hinv =>
      loopStep_inv duration startTime now dt s s2 rep hstep hinv,
    fun obs s hinv => runLoop_inv duration startTime obs s hinv⟩

/-- Witness for claim C10 on a concrete one-frame trace. -/
theorem frame_count_matches_samples_witness :
    (runLoop 1 0 [((0 : ℚ), (1 / 100 : ℚ))] (initialState 0)).1.frameCount
      = (runLoop 1 0 [((0 : ℚ), (1 / 100 : ℚ))] (initialState 0)).1.frameTimes.length ∧
    ∀ d ∈ (runLoop 1 0 [((0 : ℚ), (1 / 100 : ℚ))] (initialState 0)).2, 1 ≤ d :=
  (frame_count_matches_samples 1 0).2 [((0 : ℚ), (1 / 100 : ℚ))] (initialState 0) rfl

end FboTest
